import Mathlib

/-!
Shallow embedding of the sumex stream package (a composable concurrent
pipeline stage).  Pure data and the per-payload worker body are translated
directly from the source; channel sends are modelled as explicit lists of
emitted events, the atomic counters as plain integer fields, and a closed
channel as a boolean flag plus a close counter (closing an already closed
channel is a fatal fault in the source language, so the counter lets us
state that no channel is ever closed twice).
-/

namespace Sumex

/-- Execution contexts are opaque to the stage: it only forwards them.
We model them as bare identifiers. -/
abbrev Ctx := Nat

/-- Data values carried through the pipeline (the dynamic `d` slot). -/
abbrev V := Int

/-- Error values; a `none` in an error slot is the nil error. -/
abbrev E := String

/-- payload: the envelope injected into the system (source lines 76-80):
an error slot, a data slot and a context. -/
structure Payload where
  err : Option E
  d   : Option V
  ctx : Ctx
deriving Repr, DecidableEq

/-- Outcome of invoking a processor: either it returns a (result, error)
pair, or it raises a panic-class fault carrying a message.  The fault
variant models a Go panic escaping `proc.Do`. -/
inductive ProcResult where
  | ok (res : Option V) (err : Option E)
  | panicked (msg : String)
deriving Repr, DecidableEq

/-- Proc: the processor contract `Do(ctx, err, d) -> (res, err)`
(source lines 44-47), with the fault outcome made explicit. -/
abbrev Proc := Ctx → Option E → Option V → ProcResult

/-- The fault message produced when a method is invoked on a nil
processor interface. -/
def nilProcFault : String :=
  "runtime error: invalid memory address or nil pointer dereference"

/-- Invoking `s.proc.Do` where the stored processor may be nil: a nil
interface raises a runtime fault at the call site. -/
def callProc : Option Proc → Ctx → Option E → Option V → ProcResult
  | none,   _,   _, _ => .panicked nilProcFault
  | some p, ctx, e, d => p ctx e d

/-- A broadcast event emitted by the worker fan-out: a call of a
subscriber's Data or Error entry point (subscribers named by index). -/
inductive Broadcast where
  | toData  (sub : Nat) (ctx : Ctx) (d : Option V)
  | toError (sub : Nat) (ctx : Ctx) (e : E)
deriving Repr, DecidableEq

/-- A log event recorded through the Log interface (source lines 23-26). -/
inductive LogEvent where
  | log (context name message : String)
  | error (context name errval message : String)
deriving Repr, DecidableEq

/-- One iteration body of `stream.worker` (source lines 240-262): the unit
of work wrapped in `panics.Defer`.  On a normal processor return it logs,
increments the processed counter and broadcasts either to every
subscriber's Error (non-nil error) or to every subscriber's Data (nil
error).  On a panic-class fault the recovery handler runs instead: it only
logs the synthetic error value "Panic"; the statements after the processor
call (the log, the increment and the fan-out) never execute.
Returns (new processed count, broadcasts emitted, log events emitted). -/
def workerUnit (proc : Option Proc) (pubs : List Nat) (processed : Int)
    (load : Payload) : Int × List Broadcast × List LogEvent :=
  match callProc proc load.ctx load.err load.d with
  | .panicked msg =>
      (processed, [], [.error "sumex.Stream" "worker" "Panic" msg])
  | .ok res err =>
      match err with
      | some e =>
          (processed + 1,
           pubs.map (fun sub => Broadcast.toError sub load.ctx e),
           [.log "sumex.Stream" "worker" "Info : Res"])
      | none =>
          (processed + 1,
           pubs.map (fun sub => Broadcast.toData sub load.ctx res),
           [.log "sumex.Stream" "worker" "Info : Res"])

/-- The worker consume loop (source lines 239-265): drain the queued
payloads in order, running `workerUnit` on each, then log the shutdown
line when the channel is exhausted. -/
def workerRun (proc : Option Proc) (pubs : List Nat) (processed : Int) :
    List Payload → Int × List Broadcast × List LogEvent
  | [] => (processed, [], [.log "sumex.Stream" "worker"
      "Info : Goroutine : Shutdown"])
  | load :: rest =>
      let u := workerUnit proc pubs processed load
      let r := workerRun proc pubs u.1 rest
      (r.1, u.2.1 ++ r.2.1, u.2.2 ++ r.2.2)

/-- The mutable state of a stream (source lines 119-138): counters, the
intake channel contents, close bookkeeping and the subscriber list.
`dataCloseCount` / `ncCloseCount` count executions of `close` on the data
channel and the close-notification channel. -/
structure StreamState where
  closed         : Int
  processed      : Int
  pending        : Int
  workersUp      : Int
  workers        : Nat
  intake         : List Payload
  dataClosed     : Bool
  dataCloseCount : Nat
  ncCloseCount   : Nat
  pubs           : List Nat
deriving Repr, DecidableEq

/-- Stat: the operational snapshot (source lines 52-58). -/
structure Stat where
  TotalWorkersRunning : Int
  TotalWorkers        : Int
  Pending             : Int
  Completed           : Int
  Closed              : Int
deriving Repr, DecidableEq

/-- `stream.Stats` (source lines 141-149); note the source reports
`workers + 1` as TotalWorkers. -/
def Stats (s : StreamState) : Stat :=
  { TotalWorkersRunning := s.workersUp
    TotalWorkers        := (s.workers : Int) + 1
    Pending             := s.pending
    Completed           := s.processed
    Closed              := s.closed }

/-- A constructed stream object: its state plus the (possibly nil)
processor handed to the constructor. -/
structure StreamObj where
  state : StreamState
  proc  : Option Proc

/-- `New` (source lines 88-113): clamps the worker count to at least 1,
builds the state with open channels and zeroed counters, and stores the
processor as given — the source performs no nil check on `p`. -/
def New (w : Int) (p : Option Proc) : StreamObj :=
  let w2 := if w ≤ 0 then 1 else w
  { state :=
      { closed := 0, processed := 0, pending := 0, workersUp := 0
        workers := w2.toNat, intake := [], dataClosed := false
        dataCloseCount := 0, ncCloseCount := 0, pubs := [] }
    proc := p }

/-- `Do` (source lines 274-293): building a stream from a plain handler.
The source panics with "nil ProcHandler" when the handler is nil: we model
that construction-time fatal failure as `Except.error`.  Otherwise it
constructs via `New` (its registration of the new stream on the optional
upstream `sm` mutates the upstream's subscriber list and is modelled by
`StreamAdd`). -/
def Do (sm : Option Nat) (workers : Int) (h : Option Proc) :
    Except String StreamObj :=
  match h with
  | none => .error "nil ProcHandler"
  | some hf => .ok (New workers (some hf))

/-- `stream.Stream` (source lines 186-191): append a subscriber and
return it. -/
def StreamAdd (s : StreamState) (sub : Nat) : StreamState × Nat :=
  ({ s with pubs := s.pubs ++ [sub] }, sub)

/-- `stream.Shutdown` (source lines 157-177): return at once when the
closed flag is set; otherwise set the flag, close the data channel
(bracketed by a pending increment/decrement), wait for the workers, and
finally close the notification channel. -/
def Shutdown (s : StreamState) : StreamState :=
  if s.closed > 0 then s
  else
    let s1 := { s with closed := 1 }
    let s2 := { s1 with pending := s1.pending + 1 }
    let s3 := { s2 with dataClosed := true
                        dataCloseCount := s2.dataCloseCount + 1 }
    let s4 := { s3 with pending := s3.pending - 1 }
    { s4 with ncCloseCount := s4.ncCloseCount + 1 }

/-- `stream.Data` (source lines 201-213): drop the submission when the
closed flag is set; otherwise increment pending, hand the payload to the
intake channel, and decrement pending once the handoff completes. -/
def Data (s : StreamState) (ctx : Ctx) (d : Option V) : StreamState :=
  if s.closed > 0 then s
  else
    let s1 := { s with pending := s.pending + 1 }
    let s2 := { s1 with intake :=
        s1.intake ++ [Payload.mk none d ctx] }
    { s2 with pending := s2.pending - 1 }

/-- `stream.Error` (source lines 217-229): same shape as `Data`, with the
payload carrying the error slot (the source guards with `closed != 0`). -/
def Error (s : StreamState) (ctx : Ctx) (e : Option E) : StreamState :=
  if s.closed ≠ 0 then s
  else
    let s1 := { s with pending := s.pending + 1 }
    let s2 := { s1 with intake :=
        s1.intake ++ [Payload.mk e none ctx] }
    { s2 with pending := s2.pending - 1 }

/-- A submission operation on a stage: a Data call or an Error call. -/
inductive Op where
  | data (ctx : Ctx) (d : Option V)
  | err  (ctx : Ctx) (e : Option E)
deriving Repr, DecidableEq

/-- Run a sequence of completed Data/Error calls against a stage. -/
def runOps (s : StreamState) : List Op → StreamState
  | [] => s
  | .data c d :: rest => runOps (Data s c d) rest
  | .err c e :: rest => runOps (Error s c e) rest

/-- Processor of the single-worker bridge stage built by `ReceiveError`
(source lines 345-350): forward the incoming error onto the bridge
channel only when it is non-nil, and return (nil, nil).  The first
component is the list of values sent on the channel by this call. -/
def receiveErrorProc (ctx : Ctx) (e : Option E) (d : Option V) :
    List E × (Option V × Option E) :=
  match e with
  | some er => ([er], (none, none))
  | none => ([], (none, none))

/-- A processor that always raises a panic-class fault. -/
def alwaysPanics : Proc := fun _ _ _ => .panicked "processor fault"

/-- A processor that always returns a non-nil error. -/
def alwaysErrs : Proc := fun _ _ _ => .ok none (some "bad")

theorem shutdown_closed_pos (s : StreamState) : (Shutdown s).closed > 0 := by
  unfold Shutdown
  by_cases h : s.closed > 0
  · simp [h]
  · simp [h]

theorem shutdown_of_closed_pos (s : StreamState) (h : s.closed > 0) :
    Shutdown s = s := by
  unfold Shutdown
  simp [h]

theorem data_pending_eq (s : StreamState) (c : Ctx) (d : Option V) :
    (Data s c d).pending = s.pending := by
  unfold Data
  by_cases h : s.closed > 0 <;> simp [h]

theorem error_pending_eq (s : StreamState) (c : Ctx) (e : Option E) :
    (Error s c e).pending = s.pending := by
  unfold Error
  by_cases h : s.closed ≠ 0 <;> simp [h]

theorem shutdown_pending_eq (s : StreamState) :
    (Shutdown s).pending = s.pending := by
  unfold Shutdown
  by_cases h : s.closed > 0 <;> simp [h]

theorem runOps_pending_eq (ops : List Op) (s : StreamState) :
    (runOps s ops).pending = s.pending := by
  induction ops generalizing s with
  | nil => rfl
  | cons op rest ih =>
      cases op with
      | data c d => rw [runOps, ih, data_pending_eq]
      | err c e => rw [runOps, ih, error_pending_eq]

/-- C1 counterexample: with a subscriber registered (index 7), a unit whose
processor raises a panic-class fault produces no broadcast at all — in
particular no Error broadcast reaches the subscriber; the fault surfaces
only as a log event carrying the synthetic error value "Panic". -/
theorem panic_no_error_broadcast_cex :
    (workerUnit (some alwaysPanics) [7] 0 (Payload.mk none (some 42) 0)).2.1
      = [] ∧
    (workerUnit (some alwaysPanics) [7] 0 (Payload.mk none (some 42) 0)).2.2
      = [LogEvent.error "sumex.Stream" "worker" "Panic" "processor fault"] :=
  ⟨rfl, rfl⟩

/-- C1 (amended): a processor fault is intercepted at the worker boundary
and converted into a synthetic error value that is logged, and the worker
returns normally from the unit; but no error broadcast is made to any
subscriber and the processed counter is left unchanged — the fault reaches
subscribers only as a log line, never as an Error call. -/
theorem panic_intercepted_logged_only (p : Option Proc) (pubs : List Nat)
    (n : Int) (load : Payload) (msg : String)
    (h : callProc p load.ctx load.err load.d = .panicked msg) :
    workerUnit p pubs n load =
      (n, [], [LogEvent.error "sumex.Stream" "worker" "Panic" msg]) := by
  unfold workerUnit
  rw [h]

/-- C1 witness: the amended statement evaluated on a concrete panicking
processor with subscriber list [3]. -/
theorem panic_intercepted_logged_only_witness :
    workerUnit (some alwaysPanics) [3] 5 (Payload.mk none none 1) =
      (5, [],
       [LogEvent.error "sumex.Stream" "worker" "Panic" "processor fault"]) :=
  panic_intercepted_logged_only (some alwaysPanics) [3] 5
    (Payload.mk none none 1) "processor fault" rfl

/-- C2: a panic-class fault on unit k never terminates the worker loop:
the run over (load :: rest) where load faults equals the run over rest
(same processed count, same broadcasts) with only the fault's log event
prepended — so unit k+1 and all later units are still received and
processed exactly as they would have been. -/
theorem worker_survives_panicked_unit (p : Option Proc) (pubs : List Nat)
    (n : Int) (load : Payload) (rest : List Payload) (msg : String)
    (h : callProc p load.ctx load.err load.d = .panicked msg) :
    workerRun p pubs n (load :: rest) =
      ((workerRun p pubs n rest).1,
       (workerRun p pubs n rest).2.1,
       LogEvent.error "sumex.Stream" "worker" "Panic" msg ::
         (workerRun p pubs n rest).2.2) := by
  have hu : workerUnit p pubs n load =
      (n, [], [.error "sumex.Stream" "worker" "Panic" msg]) := by
    unfold workerUnit
    rw [h]
  simp [workerRun, hu]

/-- C2 witness: a two-unit queue whose first unit faults; the second unit
is still processed. -/
theorem worker_survives_panicked_unit_witness :
    workerRun (some alwaysPanics) [0] 0
        [Payload.mk none (some 1) 0, Payload.mk none (some 2) 0] =
      ((workerRun (some alwaysPanics) [0] 0 [Payload.mk none (some 2) 0]).1,
       (workerRun (some alwaysPanics) [0] 0
           [Payload.mk none (some 2) 0]).2.1,
       LogEvent.error "sumex.Stream" "worker" "Panic" "processor fault" ::
         (workerRun (some alwaysPanics) [0] 0
             [Payload.mk none (some 2) 0]).2.2) :=
  worker_survives_panicked_unit (some alwaysPanics) [0] 0
    (Payload.mk none (some 1) 0) [Payload.mk none (some 2) 0]
    "processor fault" rfl

/-- C3 counterexample: constructing via New with a nil processor does not
fail at construction time — it returns a live stage (closed flag 0, one
worker) storing the nil processor, and invoking that processor later is a
runtime fault, not a construction-time one. -/
theorem new_nil_proc_no_failfast_cex :
    (New 1 none).state.closed = 0 ∧
    (New 1 none).state.workers = 1 ∧
    (New 1 none).proc = none ∧
    callProc (New 1 none).proc 0 none (some 5) = .panicked nilProcFault :=
  ⟨rfl, by simp [New], rfl, rfl⟩

/-- C3 (amended): only the Do combinator fails fast on a nil handler
(fatal "nil ProcHandler" at construction); New performs no nil check — it
constructs and returns a running stage, and the nil processor surfaces
later as a per-unit runtime fault that the worker's recovery intercepts
and logs. -/
theorem nil_proc_construction_paths (w : Int) (sm : Option Nat)
    (pubs : List Nat) (n : Int) (load : Payload) :
    Do sm w none = .error "nil ProcHandler" ∧
    (New w none).state.closed = 0 ∧
    workerUnit (New w none).proc pubs n load =
      (n, [],
       [LogEvent.error "sumex.Stream" "worker" "Panic" nilProcFault]) :=
  ⟨rfl, rfl, rfl⟩

/-- C8 counterexample: a unit whose processor raises a panic-class fault
leaves the processed counter unchanged (0, not 1): the increment sits
after the processor call and is skipped when the call faults. -/
theorem processed_not_incremented_on_panic_cex :
    (workerUnit (some alwaysPanics) [] 0 (Payload.mk none (some 9) 0)).1
      = 0 :=
  rfl

/-- C8 (amended): the processed counter is incremented by exactly one when
the processor returns, whether with a nil or non-nil error; when the
processor raises a panic-class fault the increment is skipped and the
counter is unchanged. -/
theorem processed_counter_per_outcome (p : Option Proc) (pubs : List Nat)
    (n : Int) (load : Payload) :
    (workerUnit p pubs n load).1 =
      (match callProc p load.ctx load.err load.d with
       | .ok _ _ => n + 1
       | .panicked _ => n) := by
  cases hc : callProc p load.ctx load.err load.d with
  | panicked msg => simp [workerUnit, hc]
  | ok res err => cases err <;> simp [workerUnit, hc]

/-- C4: when the processor returns, exactly one of the two broadcasts
happens — nil error: the result goes to every subscriber's Data and no
Error broadcast occurs; non-nil error: the error goes to every
subscriber's Error and no Data broadcast occurs (the result is
discarded). -/
theorem worker_broadcast_exclusive (p : Option Proc) (pubs : List Nat)
    (n : Int) (load : Payload) (res : Option V) (err : Option E)
    (h : callProc p load.ctx load.err load.d = .ok res err) :
    (err = none →
      (workerUnit p pubs n load).2.1 =
        pubs.map (fun sub => Broadcast.toData sub load.ctx res) ∧
      ∀ sub c e, Broadcast.toError sub c e ∉ (workerUnit p pubs n load).2.1)
    ∧
    (∀ e, err = some e →
      (workerUnit p pubs n load).2.1 =
        pubs.map (fun sub => Broadcast.toError sub load.ctx e) ∧
      ∀ sub c dv,
        Broadcast.toData sub c dv ∉ (workerUnit p pubs n load).2.1) := by
  constructor
  · rintro rfl
    refine ⟨by simp [workerUnit, h], ?_⟩
    intro sub c e hmem
    simp [workerUnit, h] at hmem
  · rintro e rfl
    refine ⟨by simp [workerUnit, h], ?_⟩
    intro sub c dv hmem
    simp [workerUnit, h] at hmem

/-- C4 witness: one worker, processor always returning a non-nil error,
submitted value 42, one subscriber (index 0): the subscriber's Error entry
is invoked and its Data entry is not. -/
theorem worker_broadcast_exclusive_witness :
    (workerUnit (some alwaysErrs) [0] 0 (Payload.mk none (some 42) 0)).2.1 =
      [Broadcast.toError 0 0 "bad"] ∧
    Broadcast.toData 0 0 none ∉
      (workerUnit (some alwaysErrs) [0] 0 (Payload.mk none (some 42) 0)).2.1
    := by
  have h := worker_broadcast_exclusive (some alwaysErrs) [0] 0
      (Payload.mk none (some 42) 0) none (some "bad") rfl
  exact ⟨(h.2 "bad" rfl).1, (h.2 "bad" rfl).2 0 0 none⟩

/-- C5: Shutdown is idempotent on a fresh open stage: a second call
returns the state of the first unchanged (it detects the closed flag), the
notification channel is closed exactly once (CloseNotify fires once) and
the data channel is closed exactly once (no double close fault). -/
theorem shutdown_idempotent (s : StreamState) (h0 : s.closed = 0)
    (h1 : s.ncCloseCount = 0) (h2 : s.dataCloseCount = 0) :
    Shutdown (Shutdown s) = Shutdown s ∧
    (Shutdown (Shutdown s)).ncCloseCount = 1 ∧
    (Shutdown (Shutdown s)).dataCloseCount = 1 := by
  have heq : Shutdown (Shutdown s) = Shutdown s :=
    shutdown_of_closed_pos (Shutdown s) (shutdown_closed_pos s)
  refine ⟨heq, ?_, ?_⟩ <;> rw [heq] <;> unfold Shutdown <;>
    simp [h0, h1, h2]

/-- C5 witness: the idempotence statement on a freshly constructed
single-worker stage. -/
theorem shutdown_idempotent_witness :
    Shutdown (Shutdown (New 1 none).state) = Shutdown (New 1 none).state ∧
    (Shutdown (Shutdown (New 1 none).state)).ncCloseCount = 1 ∧
    (Shutdown (Shutdown (New 1 none).state)).dataCloseCount = 1 :=
  shutdown_idempotent (New 1 none).state rfl rfl rfl

/-- C6: after Shutdown has completed, Data and Error submissions are exact
no-ops: the state (intake contents included) is unchanged, so nothing is
enqueued and the reported Pending statistic is unchanged. -/
theorem post_shutdown_submission_noop (s : StreamState) (c : Ctx)
    (d : Option V) (e : Option E) :
    Data (Shutdown s) c d = Shutdown s ∧
    Error (Shutdown s) c e = Shutdown s ∧
    (Stats (Data (Shutdown s) c d)).Pending =
      (Stats (Shutdown s)).Pending := by
  have hc := shutdown_closed_pos s
  have hd : Data (Shutdown s) c d = Shutdown s := by
    unfold Data
    simp [hc]
  have he : Error (Shutdown s) c e = Shutdown s := by
    unfold Error
    simp [hc.ne']
  exact ⟨hd, he, by rw [hd]⟩

/-- C7: for any sequence of completed Data/Error submissions on a freshly
constructed stage followed by Shutdown, the reported Pending statistic is
0 after Shutdown returns: every pending increment is matched by a
decrement once the handoff completes. -/
theorem pending_zero_after_shutdown (w : Int) (p : Option Proc)
    (ops : List Op) :
    (Stats (Shutdown (runOps (New w p).state ops))).Pending = 0 := by
  show (Shutdown (runOps (New w p).state ops)).pending = 0
  rw [shutdown_pending_eq, runOps_pending_eq]
  simp [New]

/-- C9: for every configured worker count N at least 1, immediately after
construction Stats().TotalWorkers equals N + 1 (the source reports the
worker count plus one implicit bookkeeping unit). -/
theorem total_workers_after_new (N : Int) (p : Option Proc) (h : 1 ≤ N) :
    (Stats (New N p).state).TotalWorkers = N + 1 := by
  have hn : ¬ N ≤ 0 := by omega
  show ((New N p).state.workers : Int) + 1 = N + 1
  simp [New, hn]
  omega

/-- C9 witness: a stage configured with 3 workers reports TotalWorkers
3 + 1. -/
theorem total_workers_after_new_witness :
    (Stats (New 3 none).state).TotalWorkers = 3 + 1 :=
  total_workers_after_new 3 none (by norm_num)

/-- C10: the bridge processor installed by ReceiveError forwards nothing
onto the channel and returns (nil, nil) when the incoming error is nil,
and every value it does forward is exactly the non-nil incoming error — so
a consumer draining the channel never observes a nil error. -/
theorem receive_error_only_non_nil (ctx : Ctx) (e : Option E)
    (d : Option V) :
    (e = none → receiveErrorProc ctx e d = ([], (none, none))) ∧
    ∀ x, x ∈ (receiveErrorProc ctx e d).1 → e = some x := by
  cases e with
  | none =>
      refine ⟨fun _ => rfl, ?_⟩
      intro x hx
      simp [receiveErrorProc] at hx
  | some er =>
      refine ⟨(fun h => nomatch h), ?_⟩
      intro x hx
      simp [receiveErrorProc] at hx
      rw [hx]

/-- C10 witness: a nil incoming error with a data value present forwards
nothing and returns (nil, nil). -/
theorem receive_error_only_non_nil_witness :
    receiveErrorProc 0 none (some 7) = ([], (none, none)) :=
  (receive_error_only_non_nil 0 none (some 7)).1 rfl

end Sumex
